import Mathlib

/-!
A shallow embedding of the execution engine of the Mini-Shell repository
(src/src/cmd.c) and proofs about the status-combination and redirection
logic of its evaluator.

The embedding is pure: every interaction with the operating system
(fork, execvp, waitpid, pipe, chdir, setenv) is replaced by explicit
response parameters that say how the OS answers each call, and every
execution of a leaf command is recorded in a trace (a list of the
simple commands the evaluator ran), so that "subtree B is evaluated"
is an observable fact of the model.  The data types `word_t`,
`simple_command_t`, the operator enumeration and the constants
`SHELL_EXIT`, `IO_OUT_APPEND`, `IO_ERR_APPEND` live in cmd.h, which is
not among the repository files here; they are modelled from the spec
(sections 2 and 3).  Everything else is translated line by line from
src/src/cmd.c.
-/

namespace MiniShell

/-- Modelled from the spec: the termination sentinel is defined in cmd.h,
which is missing from the sources.  Spec section 3: "A distinguished
sentinel value signals 'the interpreter should terminate' (produced only
by exit/quit), distinct from ordinary failure statuses"; ordinary
statuses are the low 8 bits of a termination code, so the sentinel is
taken outside 0..255. -/
def SHELL_EXIT : Int := -100

/-- Modelled from the spec: cmd.h flag marking the output-redirection
target as append-mode (spec section 3: each output/error target carries
an append flag).  Only its distinctness from the other flag values
matters: cmd.c compares `io_flags` with it for equality. -/
def IO_OUT_APPEND : Nat := 1

/-- Modelled from the spec: cmd.h flag marking the error-redirection
target as append-mode. -/
def IO_ERR_APPEND : Nat := 2

/-- Modelled from the spec: a shell word, a string with an optional
chain of further parts (cmd.h `word_t`: `string` and `next_part`).
Word expansion is out of scope (spec section 1), so a part is just its
resolved string. -/
inductive word_t : Type where
  | mk (string : String) (next_part : Option word_t) : word_t

/-- The `string` field of a `word_t`. -/
def word_t.string : word_t → String
  | word_t.mk s _ => s

/-- The `next_part` field of a `word_t`. -/
def word_t.next_part : word_t → Option word_t
  | word_t.mk _ n => n

/-- The operating system's responses to the system calls made while
executing one external command (cmd.c `execute_external_command`):
whether `fork` fails, whether `execvp` fails in the child, and the exit
code the program passes to `exit` when it does run (the parent sees its
low byte through `WEXITSTATUS`). -/
structure ExternalBehavior : Type where
  forkFails : Bool
  execFails : Bool
  progStatus : Nat

/-- Modelled from the spec: cmd.h `simple_command_t` — the leaf command
(spec section 3: verb plus argument words, optional input / output /
error redirection targets, append flags).  The last three fields are
not in the C struct: they are the OS responses consumed when this leaf
runs (`execvp`/`fork`/`waitpid` behaviour, the `chdir` result for a cd
verb, and the `setenv` result for an assignment), which the C code
reads from the live OS and the pure embedding takes as parameters. -/
structure simple_command_t : Type where
  verb : word_t
  params : Option word_t
  inp : Option word_t
  out : Option word_t
  err : Option word_t
  io_flags : Nat
  ext : ExternalBehavior
  chdirFails : Bool
  setenvResult : Int

/-- The mode a redirection target is opened with: `O_APPEND` versus
`O_TRUNC` (both with `O_WRONLY | O_CREAT`, cmd.c lines 53-59). -/
inductive OpenMode : Type where
  | append : OpenMode
  | trunc : OpenMode

/-- cmd.c `redirect_output` (lines 45-76), reduced to the open-mode
decision it makes: append exactly when `io_flags == IO_OUT_APPEND`,
truncate otherwise.  The `open`/`dup2`/`close` calls themselves have no
further observable effect in the model (their failures abort the
process via `DIE`, which no claim concerns). -/
def redirect_output (io_flags : Nat) : OpenMode :=
  if io_flags = IO_OUT_APPEND then OpenMode.append else OpenMode.trunc

/-- cmd.c `redirect_error` (lines 78-109), reduced to its open-mode
decision: append exactly when `io_flags == IO_ERR_APPEND`. -/
def redirect_error (io_flags : Nat) : OpenMode :=
  if io_flags = IO_ERR_APPEND then OpenMode.append else OpenMode.trunc

/-- cmd.c `redirect_both_out_and_err` (lines 111-151): the output file
is opened with `O_APPEND` (line 117) and the error file with `O_TRUNC`
(line 129), without consulting `s->io_flags` at all. -/
def redirect_both_out_and_err (_s : simple_command_t) : Option OpenMode × Option OpenMode :=
  (some OpenMode.append, some OpenMode.trunc)

/-- cmd.c `perform_redirections` (lines 154-176), reduced to the pair
(mode stdout is opened with, mode stderr is opened with), `none` when
the stream is not redirected.  The input redirection (always read-only,
no mode choice) is omitted.  Control flow follows the C exactly: if an
output target is present, either only the output is redirected (no
error target) or `redirect_both_out_and_err` handles both; otherwise an
error target alone is redirected by `redirect_error`. -/
def perform_redirections (s : simple_command_t) : Option OpenMode × Option OpenMode :=
  if s.out.isSome then
    if s.err.isNone then (some (redirect_output s.io_flags), none)
    else redirect_both_out_and_err s
  else if s.err.isSome then (none, some (redirect_error s.io_flags))
  else (none, none)

/-- cmd.c `shell_cd` (lines 181-191): `chdir` returns 0 on success and
-1 on failure, and the function returns that value through its C `bool`
type, so a failed `chdir` becomes `true` = 1 and a successful one
`false` = 0. -/
def shell_cd (chdirFails : Bool) : Int :=
  if chdirFails then 1 else 0

/-- cmd.c `complete_cd_command` (lines 193-198): apply the leaf's
redirections to the current process, then change directory. -/
def complete_cd_command (s : simple_command_t) : Int :=
  let _plan := perform_redirections s
  shell_cd s.chdirFails

/-- cmd.c `shell_exit` (lines 203-206). -/
def shell_exit : Int := SHELL_EXIT

/-- cmd.c `execute_external_command` (lines 208-248).  If `fork` fails
the function returns 0 (line 214).  Otherwise the child performs
redirections and calls `execvp`; when `execvp` fails the child calls
`exit(0)` (line 227), so the parent's `WEXITSTATUS` is 0; when the
program runs, the parent returns the low byte of its exit code
(line 245). -/
def execute_external_command (s : simple_command_t) : Int :=
  if s.ext.forkFails then 0
  else if s.ext.execFails then 0
  else Int.ofNat (s.ext.progStatus % 256)

/-- cmd.c `assign_environment_variable` (lines 250-264): if the token
after the verb is not the literal "=" or no value token follows, return
0 (line 254, commented "invalid command"); otherwise return the
`setenv` result.  The `none` branch is unreachable from `parse_simple`,
which only calls this when a next part exists. -/
def assign_environment_variable (s : simple_command_t) : Int :=
  match s.verb.next_part with
  | none => 0
  | some np =>
    if np.string ≠ "=" ∨ np.next_part.isNone then 0
    else s.setenvResult

/-- cmd.c `parse_simple` (lines 271-302), paired with the trace of leaf
executions (the one simple command it runs, or nothing for a null
leaf).  Dispatch order is the C order: exit, quit, cd, a verb with a
next part (assignment attempt), otherwise an external command. -/
def parse_simple (s : Option simple_command_t) : Int × List simple_command_t :=
  match s with
  | none => (0, [])
  | some s =>
    if s.verb.string = "exit" then (shell_exit, [s])
    else if s.verb.string = "quit" then (shell_exit, [s])
    else if s.verb.string = "cd" then (complete_cd_command s, [s])
    else if (s.verb.next_part).isSome then (assign_environment_variable s, [s])
    else (execute_external_command s, [s])

/-- The operating system's responses to the process- and
channel-creation calls an operator node makes: whether its first
`fork`, second `fork`, and (for a pipe node) `pipe` call fail. -/
structure node_osc : Type where
  fork1Fails : Bool
  fork2Fails : Bool
  pipeFails : Bool

/-- Modelled from the spec: the operator tags of cmd.h for non-leaf
nodes (spec section 3 and the cases of cmd.c `parse_command`); the leaf
tag `OP_NONE` is the `simple` constructor of `command_t`, and
`OP_DUMMY` is the tag reaching `parse_command`'s `default` branch. -/
inductive Op : Type where
  | OP_SEQUENTIAL : Op
  | OP_PARALLEL : Op
  | OP_CONDITIONAL_NZERO : Op
  | OP_CONDITIONAL_ZERO : Op
  | OP_PIPE : Op
  | OP_DUMMY : Op

/-- Modelled from the spec: cmd.h `command_t` as the tagged union of
spec section 3 — a leaf holds one (possibly null) simple command
(`OP_NONE` in the C), a non-leaf holds an operator and exactly two
children, plus the OS responses for the system calls that node itself
makes. -/
inductive command_t : Type where
  | simple : Option simple_command_t → command_t
  | compound : Op → node_osc → command_t → command_t → command_t

/-- The C implicit conversion of a `bool` return value to `int`
(`exit_code = run_in_parallel(...)`, cmd.c lines 477 and 494). -/
def intOfBool (b : Bool) : Int :=
  if b then 1 else 0

/-- cmd.c `run_in_parallel` (lines 307-357), over the results the two
children would produce (each child runs `exit(parse_command(cmd))`, so
its wait status is the low byte of that result and its trace is the
leaf executions it performed).  If the first `fork` fails, return
`false` with no child started; if the second fails, return `false`
while the already-started first child still runs.  Otherwise wait for
both and return `true` exactly when both `WEXITSTATUS` values are 0
(lines 348-356). -/
def run_in_parallel (osc : node_osc) (r1 r2 : Int × List simple_command_t) :
    Bool × List simple_command_t :=
  if osc.fork1Fails then (false, [])
  else if osc.fork2Fails then (false, r1.2)
  else
    if r1.1 % 256 ≠ 0 then (false, r1.2 ++ r2.2)
    else if r2.1 % 256 ≠ 0 then (false, r1.2 ++ r2.2)
    else (true, r1.2 ++ r2.2)

/-- cmd.c `run_on_pipe` (lines 362-457), over the results the two
children would produce.  A failed `pipe` or first `fork` returns
`false` with nothing run; a failed second `fork` returns `false` while
the first child still runs.  Otherwise the parent waits for both and
returns `WEXITSTATUS` of the second child through the C `bool` return
type (line 456), which collapses any nonzero status to `true` = 1. -/
def run_on_pipe (osc : node_osc) (r1 r2 : Int × List simple_command_t) :
    Bool × List simple_command_t :=
  if osc.pipeFails then (false, [])
  else if osc.fork1Fails then (false, [])
  else if osc.fork2Fails then (false, r1.2)
  else ((if r2.1 % 256 = 0 then false else true), r1.2 ++ r2.2)

/-- cmd.c `parse_command` (lines 462-502), paired with the trace of the
leaf executions the evaluation performs.  `OP_NONE` is the `simple`
case; `OP_SEQUENTIAL` runs both children and returns the second's
status (lines 471-474); `OP_PARALLEL` and `OP_PIPE` convert the helper
functions' `bool` to the returned `int`; the conditionals run the
second child only when the first's status is nonzero respectively zero
(lines 480-491); any other operator returns `SHELL_EXIT` from the
`default` branch (line 498) without touching the children.  The
`level`/`father` arguments of the C function never influence the result
and are dropped. -/
def parse_command : command_t → Int × List simple_command_t
  | command_t.simple scmd => parse_simple scmd
  | command_t.compound op osc cmd1 cmd2 =>
    match op with
    | Op.OP_SEQUENTIAL =>
      let r1 := parse_command cmd1
      let r2 := parse_command cmd2
      (r2.1, r1.2 ++ r2.2)
    | Op.OP_PARALLEL =>
      let r := run_in_parallel osc (parse_command cmd1) (parse_command cmd2)
      (intOfBool r.1, r.2)
    | Op.OP_CONDITIONAL_NZERO =>
      let r1 := parse_command cmd1
      if r1.1 ≠ 0 then
        let r2 := parse_command cmd2
        (r2.1, r1.2 ++ r2.2)
      else (r1.1, r1.2)
    | Op.OP_CONDITIONAL_ZERO =>
      let r1 := parse_command cmd1
      if r1.1 = 0 then
        let r2 := parse_command cmd2
        (r2.1, r1.2 ++ r2.2)
      else (r1.1, r1.2)
    | Op.OP_PIPE =>
      let r := run_on_pipe osc (parse_command cmd1) (parse_command cmd2)
      (intOfBool r.1, r.2)
    | Op.OP_DUMMY => (SHELL_EXIT, [])

/-- Node OS responses where every creation call succeeds. -/
def osc_ok : node_osc := ⟨false, false, false⟩

/-- Node OS responses where the `pipe` call fails. -/
def osc_pipe_fail : node_osc := ⟨false, false, true⟩

/-- Node OS responses where the first `fork` fails. -/
def osc_fork1_fail : node_osc := ⟨true, false, false⟩

/-- A one-part word. -/
def wordOf (s : String) : word_t := word_t.mk s none

/-- A leaf simple command with the given verb, no redirections, whose
external execution (if it is not a builtin) forks and execs fine and
exits with the given code. -/
def extCmd (name : String) (st : Nat) : simple_command_t :=
  ⟨wordOf name, none, none, none, none, 0, ⟨false, false, st⟩, false, 0⟩

/-- A leaf command node around `extCmd`. -/
def extLeaf (name : String) (st : Nat) : command_t :=
  command_t.simple (some (extCmd name st))

/-- A leaf running the `exit` builtin. -/
def exitLeaf : command_t := command_t.simple (some (extCmd "exit" 0))

/-- An external leaf whose `fork` call fails. -/
def forkFailLeaf : command_t :=
  command_t.simple (some ⟨wordOf "prog", none, none, none, none, 0, ⟨true, false, 0⟩, false, 0⟩)

/-- An external leaf whose `execvp` call fails (program not found). -/
def execFailLeaf : command_t :=
  command_t.simple (some ⟨wordOf "nosuchprog", none, none, none, none, 0, ⟨false, true, 7⟩, false, 0⟩)

/-- A leaf whose verb "FOO" is followed by the token "bar" instead of
"=": a malformed environment-variable assignment attempt. -/
def malformedAssignLeaf : command_t :=
  command_t.simple (some ⟨word_t.mk "FOO" (some (word_t.mk "bar" none)), none, none, none, none, 0,
    ⟨false, false, 0⟩, false, 0⟩)

/-- A well-formed assignment leaf `FOO = bar` whose underlying `setenv`
call fails with -1. -/
def wellFormedAssignLeaf : command_t :=
  command_t.simple (some ⟨word_t.mk "FOO" (some (word_t.mk "=" (some (word_t.mk "bar" none)))),
    none, none, none, none, 0, ⟨false, false, 0⟩, false, -1⟩)

/-- C1: evaluating a PARALLEL node whose two children both exit with
status 0 yields the combined status 1, and one with a child exiting 5
yields 0: `run_in_parallel` returns its C `bool` (true = both
succeeded) which `parse_command` stores as the exit code, so the
evaluator reports 1 (failure) exactly when both children succeed — the
inverse of the claimed combination. -/
theorem C1_parallel_inverts_combined_status :
    (parse_command (command_t.compound Op.OP_PARALLEL osc_ok (extLeaf "a" 0) (extLeaf "b" 0))).1
      = 1 ∧
    (parse_command (command_t.compound Op.OP_PARALLEL osc_ok (extLeaf "a" 0) (extLeaf "b" 5))).1
      = 0 := by
  decide

/-- C2 counterexample: with a right child that really exits 2, the PIPE
node returns 1, not 2 — the status is not returned "exactly as
reported", refuting the claim at this input. -/
theorem C2_pipe_claim_counterexample :
    (parse_command (extLeaf "b" 2)).1 = 2 ∧
    (parse_command (command_t.compound Op.OP_PIPE osc_ok (extLeaf "a" 0) (extLeaf "b" 2))).1 = 1 ∧
    (parse_command (command_t.compound Op.OP_PIPE osc_ok (extLeaf "a" 0) (extLeaf "b" 2))).1 ≠
      (parse_command (extLeaf "b" 2)).1 := by
  decide

/-- C2 (amended): when pipe and fork creation succeed, the PIPE node
returns the right child's exit status collapsed to a boolean — 0 when
the right child's status (low byte) is 0 and 1 otherwise — because
`run_on_pipe` returns `WEXITSTATUS` through its C `bool` type; both
children are evaluated. -/
theorem C2_pipe_status_collapsed_to_boolean (c1 c2 : command_t) :
    parse_command (command_t.compound Op.OP_PIPE osc_ok c1 c2) =
      ((if (parse_command c2).1 % 256 = 0 then 0 else 1),
        (parse_command c1).2 ++ (parse_command c2).2) := by
  have h : parse_command (command_t.compound Op.OP_PIPE osc_ok c1 c2) =
      (intOfBool (if (parse_command c2).1 % 256 = 0 then false else true),
        (parse_command c1).2 ++ (parse_command c2).2) := rfl
  rw [h, intOfBool]
  split <;> rfl

/-- C3: for an external leaf whose `execvp` fails (program not found),
the child runs `exit(0)` (cmd.c line 227), so the parent observes exit
status 0 — success — where the claim and the spec require a non-zero
failure status. -/
theorem C3_exec_failure_reports_success :
    (parse_command execFailLeaf).1 = 0 := by
  decide

/-- C4: each creation failure is reported as the success status 0: a
failed `fork` in `execute_external_command` returns 0 (cmd.c line 214),
a failed `pipe` in `run_on_pipe` returns `false` which `parse_command`
stores as exit code 0, and a failed first `fork` in `run_in_parallel`
likewise becomes 0 — even though the children (which would exit 1)
never ran. -/
theorem C4_creation_failures_report_success :
    (parse_command forkFailLeaf).1 = 0 ∧
    (parse_command
      (command_t.compound Op.OP_PIPE osc_pipe_fail (extLeaf "a" 1) (extLeaf "b" 1))).1 = 0 ∧
    (parse_command
      (command_t.compound Op.OP_PARALLEL osc_fork1_fail (extLeaf "a" 1) (extLeaf "b" 1))).1
      = 0 := by
  decide

/-- C5 counterexample: the left child `exit` yields the sentinel
`SHELL_EXIT`, yet SEQUENTIAL discards it and returns the right child's
status 5 (not the sentinel), and IF_NONZERO treats the sentinel as an
ordinary non-zero status, evaluating the right child and returning 5 —
refuting the claim at these inputs. -/
theorem C5_sentinel_claim_counterexample :
    (parse_command exitLeaf).1 = SHELL_EXIT ∧
    (parse_command (command_t.compound Op.OP_SEQUENTIAL osc_ok exitLeaf (extLeaf "b" 5))).1 = 5 ∧
    (parse_command (command_t.compound Op.OP_SEQUENTIAL osc_ok exitLeaf (extLeaf "b" 5))).1 ≠
      SHELL_EXIT ∧
    (parse_command
      (command_t.compound Op.OP_CONDITIONAL_NZERO osc_ok exitLeaf (extLeaf "b" 5))).1 = 5 := by
  decide

/-- C5 (amended): when the left subtree yields the termination
sentinel, SEQUENTIAL discards it and returns the right subtree's
status; IF_NONZERO treats it as an ordinary non-zero status, evaluates
the right subtree and returns its status; only IF_ZERO returns the
sentinel without evaluating the right subtree (because the sentinel is
not 0). -/
theorem C5_sentinel_propagation_amended (c1 c2 : command_t) (osc : node_osc)
    (h : (parse_command c1).1 = SHELL_EXIT) :
    (parse_command (command_t.compound Op.OP_SEQUENTIAL osc c1 c2)).1 = (parse_command c2).1 ∧
    parse_command (command_t.compound Op.OP_CONDITIONAL_NZERO osc c1 c2) =
      ((parse_command c2).1, (parse_command c1).2 ++ (parse_command c2).2) ∧
    parse_command (command_t.compound Op.OP_CONDITIONAL_ZERO osc c1 c2) =
      (SHELL_EXIT, (parse_command c1).2) := by
  refine ⟨by simp [parse_command], ?_, ?_⟩
  · simp [parse_command, h, SHELL_EXIT]
  · simp [parse_command, h, SHELL_EXIT]

/-- C5 witness: the amended statement instantiated at `exit` on the
left and an external program exiting 5 on the right. -/
theorem C5_sentinel_propagation_amended_witness :
    (parse_command exitLeaf).1 = SHELL_EXIT ∧
    ((parse_command (command_t.compound Op.OP_SEQUENTIAL osc_ok exitLeaf (extLeaf "b" 5))).1 =
        (parse_command (extLeaf "b" 5)).1 ∧
      parse_command (command_t.compound Op.OP_CONDITIONAL_NZERO osc_ok exitLeaf (extLeaf "b" 5)) =
        ((parse_command (extLeaf "b" 5)).1,
          (parse_command exitLeaf).2 ++ (parse_command (extLeaf "b" 5)).2) ∧
      parse_command (command_t.compound Op.OP_CONDITIONAL_ZERO osc_ok exitLeaf (extLeaf "b" 5)) =
        (SHELL_EXIT, (parse_command exitLeaf).2)) :=
  ⟨by decide, C5_sentinel_propagation_amended exitLeaf (extLeaf "b" 5) osc_ok (by decide)⟩

/-- C6: SEQUENTIAL evaluates the left subtree (its leaf executions
appear first in the trace), discards its status, always evaluates the
right subtree, and returns the right subtree's status — for every pair
of subtrees, whatever the left one's status. -/
theorem C6_sequential_runs_both_returns_right_status (c1 c2 : command_t) (osc : node_osc) :
    parse_command (command_t.compound Op.OP_SEQUENTIAL osc c1 c2) =
      ((parse_command c2).1, (parse_command c1).2 ++ (parse_command c2).2) := by
  simp [parse_command]

/-- C7: IF_NONZERO evaluates the left subtree and, exactly when its
status is non-zero, evaluates the right subtree and returns its status,
otherwise returns the left result (status and trace) untouched;
IF_ZERO does the same with the condition "status is 0". -/
theorem C7_conditional_operators (c1 c2 : command_t) (osc : node_osc) :
    parse_command (command_t.compound Op.OP_CONDITIONAL_NZERO osc c1 c2) =
      (if (parse_command c1).1 ≠ 0 then
        ((parse_command c2).1, (parse_command c1).2 ++ (parse_command c2).2)
      else parse_command c1) ∧
    parse_command (command_t.compound Op.OP_CONDITIONAL_ZERO osc c1 c2) =
      (if (parse_command c1).1 = 0 then
        ((parse_command c2).1, (parse_command c1).2 ++ (parse_command c2).2)
      else parse_command c1) := by
  exact ⟨rfl, rfl⟩

/-- C8: when both an output and an error target are present,
`perform_redirections` opens the output target in append mode and the
error target in truncate mode whatever `io_flags` says; when only one
of the two is present, that target is opened in append mode exactly
when its own append flag (`IO_OUT_APPEND` for output, `IO_ERR_APPEND`
for error) is set in `io_flags`. -/
theorem C8_redirection_open_modes (v : word_t) (p i : Option word_t) (fl : Nat)
    (eb : ExternalBehavior) (cdf : Bool) (sev : Int) (wo we : word_t) :
    perform_redirections ⟨v, p, i, some wo, some we, fl, eb, cdf, sev⟩ =
      (some OpenMode.append, some OpenMode.trunc) ∧
    (perform_redirections ⟨v, p, i, some wo, none, fl, eb, cdf, sev⟩ =
        (some (redirect_output fl), none) ∧
      (redirect_output fl = OpenMode.append ↔ fl = IO_OUT_APPEND)) ∧
    (perform_redirections ⟨v, p, i, none, some we, fl, eb, cdf, sev⟩ =
        (none, some (redirect_error fl)) ∧
      (redirect_error fl = OpenMode.append ↔ fl = IO_ERR_APPEND)) := by
  refine ⟨rfl, ⟨rfl, ?_⟩, ⟨rfl, ?_⟩⟩
  · unfold redirect_output
    split <;> simp_all
  · unfold redirect_error
    split <;> simp_all

/-- C9: the leaf `FOO bar` — a verb followed by a token that is not the
literal "=" — is treated as a malformed assignment and
`assign_environment_variable` returns 0, the success status (cmd.c line
254, commented "invalid command"), where the claim requires a non-zero
status; a well-formed assignment `FOO = bar` does return the underlying
`setenv` result (here -1). -/
theorem C9_malformed_assignment_reports_success :
    (parse_command malformedAssignLeaf).1 = 0 ∧
    (parse_command wellFormedAssignLeaf).1 = -1 := by
  decide

/-- C10: a non-leaf node carrying an operator outside the five handled
ones reaches `parse_command`'s `default` branch, which returns the
termination sentinel at once: the result is `SHELL_EXIT` with an empty
trace, so neither child subtree is evaluated. -/
theorem C10_unknown_operator_returns_sentinel (c1 c2 : command_t) (osc : node_osc) :
    parse_command (command_t.compound Op.OP_DUMMY osc c1 c2) = (SHELL_EXIT, []) := by
  simp [parse_command]

end MiniShell
